import Mathlib

/-!
Verification of the dynamic-task execution and compilation state machine of
flytekit.core.python_function_task (classes PythonFunctionTask,
AsyncPythonFunctionTask, EagerAsyncPythonFunctionTask).

The embedding is shallow: the dispatch and compilation logic of
python_function_task.py is translated into executable Lean functions.
External collaborators that the spec declares out of scope (the serializer
get_serializable, the type engine translate_inputs_to_literals, the workflow
object PythonFunctionWorkflow, the WorkerQueue constructor, the remote
client) appear as parameters or oracle inputs; the control flow that this
module itself performs on their results is modelled faithfully, including
the Python runtime errors it can raise (AttributeError on None access,
IndexError on out-of-range subscripts, TypeError on iterating a
non-iterable).
-/

namespace Flytekit

/-- Python values as they flow through this module.  Only the shapes the
dispatcher inspects are distinguished: None, VoidPromise (carrying the name
it was constructed with), tuples (the one iterable/indexable shape the
dynamic output-normalization code touches), and opaque scalars tagged by an
integer so distinct native results are distinguishable. -/
inductive PyObj where
  | vnone : PyObj
  | voidP (name : String) : PyObj
  | vtuple (xs : List PyObj) : PyObj
  | vint (n : Int) : PyObj

/-- Exceptions raised by the code under verification.  Each constructor
corresponds to a raise site (or an implicit Python runtime error) in
python_function_task.py. -/
inductive FlyteError where
  | valueError (msg : String) : FlyteError
  | typeError (msg : String) : FlyteError
  | flyteValueException (msg : String) : FlyteError
  | assertionError (msg : String) : FlyteError
  | attributeError : FlyteError
  | indexError : FlyteError
  | notImplementedError : FlyteError
  deriving Repr, DecidableEq

/-- ExecutionBehavior enum of PythonFunctionTask (python_function_task.py,
lines 109-112). -/
inductive ExecutionBehavior where
  | DEFAULT : ExecutionBehavior
  | DYNAMIC : ExecutionBehavior
  | EAGER : ExecutionBehavior
  deriving Repr, DecidableEq

/-- ExecutionState.Mode values referenced by python_function_task.py.  The
enum itself lives in the out-of-scope context manager; only the
constructors this module mentions are needed. -/
inductive Mode where
  | LOCAL_WORKFLOW_EXECUTION : Mode
  | LOCAL_TASK_EXECUTION : Mode
  | TASK_EXECUTION : Mode
  | DYNAMIC_TASK_EXECUTION : Mode
  | EAGER_LOCAL_EXECUTION : Mode
  | EAGER_EXECUTION : Mode
  deriving Repr, DecidableEq

/-- Execution-state frame.  The mode field mirrors ExecutionState.mode; the
isLocalFlag field abstracts the method is_local_execution of the
out-of-scope context manager, which the spec describes as the frames
local-vs-remote flag (spec, section 3, Execution Context). -/
structure ExecState where
  mode : Mode
  isLocalFlag : Bool
  deriving Repr, DecidableEq

end Flytekit

namespace Flytekit

/-- One output binding of the serialized workflow template: the bound
variable name (binding.var) together with the literal model of its binding
(binding.binding.to_literal_model()), which is what the zero-node
short-circuit of compile_into_workflow reads.  The literal payload is
abstract. -/
structure Binding (Lit : Type) where
  var : String
  lit : Lit
  deriving Repr, DecidableEq

/-- Template part of the serialized WorkflowSpec: the produced node list
and the bound outputs (workflow_spec.template.nodes and
workflow_spec.template.outputs). -/
structure WfTemplate (Node Lit : Type) where
  nodes : List Node
  outputs : List (Binding Lit)
  deriving Repr, DecidableEq

/-- Serialized WorkflowSpec as returned by the external serializer
get_serializable: the template plus any nested sub-workflow specs
(workflow_spec.sub_workflows). -/
structure WorkflowSpec (Node Lit SubWf : Type) where
  template : WfTemplate Node Lit
  sub_workflows : List SubWf
  deriving Repr, DecidableEq

/-- Classification of a key of the model_entities registry, as tested by
the isinstance checks of compile_into_workflow (lines 276-297): a plain
Task, a ReferenceTask (which is also a Task), an entity that is itself a
task_models.TaskSpec, a launch plan, or anything else. -/
inductive EntityKind where
  | plainTask : EntityKind
  | referenceTask : EntityKind
  | taskSpecEntity : EntityKind
  | launchPlan : EntityKind
  | otherEntity : EntityKind
  deriving Repr, DecidableEq

/-- Whether the registry key passes the first isinstance filter of the
gathering loop: isinstance(entity, Task) or isinstance(entity,
task_models.TaskSpec).  ReferenceTask is a Task subclass, so it passes. -/
def EntityKind.isTaskLike : EntityKind → Bool
  | .plainTask => true
  | .referenceTask => true
  | .taskSpecEntity => true
  | .launchPlan => false
  | .otherEntity => false

/-- Serialized form (the registry value) of one model_entities entry:
either a task_models.TaskSpec carrying a template, or some other model
shape. -/
inductive SerializedModel (Tmpl : Type) where
  | taskSpec (template : Tmpl) : SerializedModel Tmpl
  | otherModel : SerializedModel Tmpl
  deriving Repr, DecidableEq

/-- DynamicJobSpec produced by compile_into_workflow (lines 299-305). -/
structure DynamicJobSpec (Node Lit Tmpl SubWf : Type) where
  min_successes : Nat
  tasks : List Tmpl
  nodes : List Node
  outputs : List (Binding Lit)
  subworkflows : List SubWf
  deriving Repr, DecidableEq

/-- Result shape of compile_into_workflow: either the zero-node
short-circuit literal map or a DynamicJobSpec. -/
inductive CompileResult (Node Lit Tmpl SubWf : Type) where
  | literalMap (m : List (String × Lit)) : CompileResult Node Lit Tmpl SubWf
  | dynamicJobSpec (s : DynamicJobSpec Node Lit Tmpl SubWf) :
      CompileResult Node Lit Tmpl SubWf
  deriving Repr, DecidableEq

/-- Insertion into a Python dict modelled as an association list: an
existing key is overwritten in place, a new key is appended (Python dicts
preserve insertion order). -/
def dictInsert {Lit : Type} (m : List (String × Lit)) (k : String) (v : Lit) :
    List (String × Lit) :=
  if m.any (fun p => p.1 = k) then
    m.map (fun p => if p.1 = k then (k, v) else p)
  else
    m ++ [(k, v)]

/-- Python dict comprehension over a list of key-value pairs, in order. -/
def dictOfList {Lit : Type} (l : List (String × Lit)) : List (String × Lit) :=
  l.foldl (fun m p => dictInsert m p.1 p.2) []

/-- Template-gathering loop of compile_into_workflow (lines 276-297): walk
the registry in insertion order; skip entries whose key is neither a Task
nor a TaskSpec (launch plans are handled by propeller, subworkflows are
already in the spec); raise ValueError on a ReferenceTask; raise TypeError
if a surviving entry did not serialize to a TaskSpec; otherwise collect
model.template. -/
def gatherTaskTemplates {Tmpl : Type} :
    List (EntityKind × SerializedModel Tmpl) → Except FlyteError (List Tmpl)
  | [] => .ok []
  | (entity, model) :: rest =>
    if ¬ entity.isTaskLike then
      gatherTaskTemplates rest
    else if entity = .referenceTask then
      .error (.valueError "Reference tasks are currently unsupported within dynamic tasks")
    else
      match model with
      | .otherModel => .error (.typeError "Unexpected type for serialized form of task")
      | .taskSpec t => (gatherTaskTemplates rest).map (fun ts => t :: ts)

/-- Body of compile_into_workflow after the external serializer has run
(lines 267-307).  The context manipulation before serialization (extending
the compilation-state node-name tag and switching to
DYNAMIC_TASK_EXECUTION mode for a DYNAMIC entity) only affects what the
external serializer produces and is therefore absorbed into the
workflow_spec and model_entities oracle inputs. -/
def compile_into_workflow {Node Lit Tmpl SubWf : Type}
    (workflow_spec : WorkflowSpec Node Lit SubWf)
    (model_entities : List (EntityKind × SerializedModel Tmpl)) :
    Except FlyteError (CompileResult Node Lit Tmpl SubWf) :=
  if workflow_spec.template.nodes.length = 0 then
    .ok (.literalMap (dictOfList
      (workflow_spec.template.outputs.map (fun b => (b.var, b.lit)))))
  else
    (gatherTaskTemplates model_entities).map (fun tts =>
      .dynamicJobSpec
        { min_successes := workflow_spec.template.nodes.length
          tasks := tts
          nodes := workflow_spec.template.nodes
          outputs := workflow_spec.template.outputs
          subworkflows := workflow_spec.sub_workflows })

end Flytekit

namespace Flytekit

/-- WorkflowFailurePolicy values used by the dynamic-workflow constructor. -/
inductive WorkflowFailurePolicy where
  | FAIL_IMMEDIATELY : WorkflowFailurePolicy
  | FAIL_AFTER_EXECUTABLE_NODES_COMPLETE : WorkflowFailurePolicy
  deriving Repr, DecidableEq

/-- Workflow metadata attached to the synthesized dynamic workflow. -/
structure WorkflowMetadata where
  on_failure : WorkflowFailurePolicy
  deriving Repr, DecidableEq

/-- Default metadata attached to the synthesized dynamic workflow. -/
structure WorkflowMetadataDefaults where
  interruptible : Bool
  deriving Repr, DecidableEq

/-- The synthesized PythonFunctionWorkflow: the task function it wraps plus
the two metadata records built in _create_and_cache_dynamic_workflow.  The
function payload is abstract. -/
structure PythonFunctionWorkflow (F : Type) where
  fn : F
  metadata : WorkflowMetadata
  default_metadata : WorkflowMetadataDefaults
  deriving Repr, DecidableEq

/-- Lines 215-221: _create_and_cache_dynamic_workflow.  The argument wf is
the current value of the cached field self._wf and the result is its value
after the call; metadataInterruptible is self.metadata.interruptible
(None becoming False, per the conditional expression on line 219). -/
def create_and_cache_dynamic_workflow {F : Type}
    (metadataInterruptible : Option Bool) (task_function : F)
    (wf : Option (PythonFunctionWorkflow F)) :
    Option (PythonFunctionWorkflow F) :=
  match wf with
  | some w => some w
  | none =>
    some
      { fn := task_function
        metadata := { on_failure := .FAIL_IMMEDIATELY }
        default_metadata :=
          { interruptible := metadataInterruptible.getD false } }

/-- Python subscript lst[i] on a list, raising IndexError out of range. -/
def listGet {α : Type} : List α → Nat → Except FlyteError α
  | [], _ => .error .indexError
  | x :: _, 0 => .ok x
  | _ :: xs, n + 1 => listGet xs n

/-- Python iteration over a value.  Among the shapes of PyObj only tuples
are iterable; iterating anything else raises TypeError. -/
def pyIter : PyObj → Except FlyteError (List PyObj)
  | .vtuple xs => .ok xs
  | _ => .error (.typeError "object is not iterable")

/-- The arity-greater-than-one dict comprehension of dynamic_execute (lines
352-354): pair element i of the iterated function outputs with
expected_output_names[i], raising IndexError when the outputs are longer
than the name list and silently dropping trailing names when shorter. -/
def zipOutputsWithNames (names : List String) :
    List PyObj → Nat → Except FlyteError (List (String × PyObj))
  | [], _ => .ok []
  | x :: xs, i => do
    let n ← listGet names i
    let rest ← zipOutputsWithNames names xs (i + 1)
    pure ((n, x) :: rest)

/-- Result of the local-execution branch of dynamic_execute: either the
void-result marker VoidPromise(self.name) or a literal map. -/
inductive LocalDynResult where
  | voidPromise (name : String) : LocalDynResult
  | literalMap (m : List (String × PyObj)) : LocalDynResult

/-- Local-execution branch of dynamic_execute (lines 322-364), starting
from the native result of running the cached dynamic workflow.  Parameters
drawn from self: name, the output count of the cached workflow interface
(line 337), the declared output names of the task interface (line 341) and
its output_tuple_name (line 347).  The parameter translate stands for the
external codec translate_inputs_to_literals (line 358); wfExecuteResult is
the oracle result of self._wf.execute(**kwargs) (line 332), the cached
workflow having been materialized and the execution state switched to
DYNAMIC_TASK_EXECUTION (for a DYNAMIC entity) before that call. -/
def dynamic_execute_local (name : String) (wfOutputCount : Nat)
    (expectedOutputNames : List String) (output_tuple_name : Option String)
    (translate : List (String × PyObj) → List (String × PyObj))
    (wfExecuteResult : PyObj) : Except FlyteError LocalDynResult :=
  match wfExecuteResult with
  | .voidP _ => .ok (.voidPromise name)
  | .vnone => .ok (.voidPromise name)
  | fo =>
    if wfOutputCount = 0 then
      .error (.flyteValueException
        "Interface output should have been VoidPromise or None.")
    else do
      let wf_outputs_as_map ←
        if expectedOutputNames.length = 1 then
          match output_tuple_name, fo with
          | some _, .vtuple xs => do
            let v ← listGet xs 0
            pure (dictOfList [(expectedOutputNames.headD "", v)])
          | _, _ => pure (dictOfList [(expectedOutputNames.headD "", fo)])
        else do
          let elems ← pyIter fo
          let pairs ← zipOutputsWithNames expectedOutputNames elems 0
          pure (dictOfList pairs)
      pure (.literalMap (translate wf_outputs_as_map))

/-- Result of dynamic_execute: the local-branch result, the compile branch
result, or the raw native value of the LOCAL_TASK_EXECUTION escape hatch. -/
inductive DynExecResult (Node Lit Tmpl SubWf : Type) where
  | localResult (r : LocalDynResult) : DynExecResult Node Lit Tmpl SubWf
  | compiled (c : CompileResult Node Lit Tmpl SubWf) :
      DynExecResult Node Lit Tmpl SubWf
  | native (v : PyObj) : DynExecResult Node Lit Tmpl SubWf

/-- Dispatcher dynamic_execute (lines 309-372): branch on the current
execution state.  A local execution state takes the local branch; mode
TASK_EXECUTION delegates to compile_into_workflow (whose serializer inputs
are the oracles workflow_spec and model_entities); mode
LOCAL_TASK_EXECUTION returns the raw task-function result; a missing
execution state or any other mode raises ValueError. -/
def dynamic_execute {Node Lit Tmpl SubWf : Type}
    (execution_state : Option ExecState) (name : String)
    (wfOutputCount : Nat) (expectedOutputNames : List String)
    (output_tuple_name : Option String)
    (translate : List (String × PyObj) → List (String × PyObj))
    (wfExecuteResult : PyObj)
    (workflow_spec : WorkflowSpec Node Lit SubWf)
    (model_entities : List (EntityKind × SerializedModel Tmpl))
    (rawFunctionResult : PyObj) :
    Except FlyteError (DynExecResult Node Lit Tmpl SubWf) :=
  match execution_state with
  | some es =>
    if es.isLocalFlag then
      (dynamic_execute_local name wfOutputCount expectedOutputNames
        output_tuple_name translate wfExecuteResult).map .localResult
    else if es.mode = .TASK_EXECUTION then
      (compile_into_workflow workflow_spec model_entities).map .compiled
    else if es.mode = .LOCAL_TASK_EXECUTION then
      .ok (.native rawFunctionResult)
    else
      .error (.valueError "Invalid execution provided")
  | none => .error (.valueError "Invalid execution provided")

/-- Result of PythonFunctionTask.execute: the raw native result of the
DEFAULT branch, the dynamic-dispatch result of the DYNAMIC branch, or the
implicit Python None returned when neither branch matches (EAGER). -/
inductive TaskExecResult (Node Lit Tmpl SubWf : Type) where
  | native (v : PyObj) : TaskExecResult Node Lit Tmpl SubWf
  | dynResult (r : DynExecResult Node Lit Tmpl SubWf) :
      TaskExecResult Node Lit Tmpl SubWf
  | pyNone : TaskExecResult Node Lit Tmpl SubWf

/-- PythonFunctionTask.execute (lines 204-213): DEFAULT invokes the
wrapped task function directly on the kwargs; DYNAMIC delegates to
dynamic_execute (which receives task_function(**kwargs) for its
LOCAL_TASK_EXECUTION escape hatch); any other tag falls off the end of the
method, which in Python returns None. -/
def PythonFunctionTask.execute {Node Lit Tmpl SubWf : Type}
    (execution_mode : ExecutionBehavior)
    (task_function : List (String × PyObj) → PyObj)
    (execution_state : Option ExecState) (name : String)
    (wfOutputCount : Nat) (expectedOutputNames : List String)
    (output_tuple_name : Option String)
    (translate : List (String × PyObj) → List (String × PyObj))
    (wfExecuteResult : PyObj)
    (workflow_spec : WorkflowSpec Node Lit SubWf)
    (model_entities : List (EntityKind × SerializedModel Tmpl))
    (kwargs : List (String × PyObj)) :
    Except FlyteError (TaskExecResult Node Lit Tmpl SubWf) :=
  match execution_mode with
  | .DEFAULT => .ok (.native (task_function kwargs))
  | .DYNAMIC =>
    (dynamic_execute execution_state name wfOutputCount expectedOutputNames
      output_tuple_name translate wfExecuteResult workflow_spec
      model_entities (task_function kwargs)).map .dynResult
  | .EAGER => .ok .pyNone

end Flytekit

namespace Flytekit

/-- State of a constructed PythonFunctionTask that the verified logic
reads: the wrapped function, the execution-behavior tag, the dependency
hints, and the lazily cached dynamic workflow (self._wf, None at
construction, line 179). -/
structure TaskEntity (F Hint : Type) where
  task_function : F
  execution_mode : ExecutionBehavior
  node_dependency_hints : Option (List Hint)
  wf : Option (PythonFunctionWorkflow F)

/-- Validation chain of PythonFunctionTask.__init__ (lines 114-179).  The
interface transformation and name extraction are external; the Booleans
capture the predicates of the nested-function check (lines 155-170):
whether the resolver is the default one, istestfunction, isnested and
is_functools_wrapped_module_level of the task function.  On success the
constructed entity carries the tag, the hints and an empty workflow
cache. -/
def PythonFunctionTask.init {F Hint : Type} (task_function : Option F)
    (usesDefaultResolver istest isnestedFn functoolsWrapped : Bool)
    (execution_mode : ExecutionBehavior)
    (node_dependency_hints : Option (List Hint)) :
    Except FlyteError (TaskEntity F Hint) :=
  match task_function with
  | none =>
    .error (.valueError "TaskFunction is a required parameter for PythonFunctionTask")
  | some f =>
    if usesDefaultResolver && !istest && isnestedFn && !functoolsWrapped then
      .error (.valueError "TaskFunction cannot be a nested/inner or local function")
    else if node_dependency_hints.isSome ∧ execution_mode ≠ .DYNAMIC then
      .error (.valueError "node_dependency_hints should only be used on dynamic tasks")
    else
      .ok
        { task_function := f
          execution_mode := execution_mode
          node_dependency_hints := node_dependency_hints
          wf := none }

/-- Context frame as read by the eager execution path: the execution
state, the optional remote client (ctx.flyte_client) and the optional
worker queue (ctx.worker_queue).  Client and queue payloads are
abstract. -/
structure FlyteContext (Q R : Type) where
  execution_state : Option ExecState
  flyte_client : Option R
  worker_queue : Option Q

/-- EagerAsyncPythonFunctionTask.run_with_backend (lines 498-519): require
a remote client in context (AssertionError when absent); switch the
execution state to EAGER_EXECUTION mode (the cast on line 512 turns a
missing execution state into an AttributeError); if no worker queue is in
context, put one built from the remote client (WorkerQueue(remote), a
collaborator modelled by workerQueueOf) into the builder; then run the
task function under the built context and return its value. -/
def run_with_backend {Q R V : Type} (ctx : FlyteContext Q R)
    (workerQueueOf : R → Q) (task_function : FlyteContext Q R → V) :
    Except FlyteError V :=
  match ctx.flyte_client with
  | none =>
    .error (.assertionError
      "Remote client needs to be present in the context for cluster-based execution of an eager task.")
  | some remote =>
    match ctx.execution_state with
    | none => .error .attributeError
    | some es =>
      let builder : FlyteContext Q R :=
        { ctx with execution_state := some { es with mode := .EAGER_EXECUTION } }
      let builder : FlyteContext Q R :=
        if ctx.worker_queue.isNone then
          { builder with worker_queue := some (workerQueueOf remote) }
        else builder
      .ok (task_function builder)

/-- EagerAsyncPythonFunctionTask.async_execute (lines 477-494): read
is_local_execution from the current execution state (the cast on line 484
turns a missing state into an AttributeError); when not local, await
run_with_backend and return None (its value is not returned); when local,
run the task function under EAGER_LOCAL_EXECUTION mode (the value of
local_execution_mode, line 452) and return its result. -/
def EagerAsyncPythonFunctionTask.async_execute {Q R : Type}
    (ctx : FlyteContext Q R) (workerQueueOf : R → Q)
    (task_function : FlyteContext Q R → PyObj) : Except FlyteError PyObj :=
  match ctx.execution_state with
  | none => .error .attributeError
  | some es =>
    if !es.isLocalFlag then
      (run_with_backend ctx workerQueueOf task_function).map
        (fun _ => PyObj.vnone)
    else
      .ok (task_function
        { ctx with
          execution_state := some { es with mode := .EAGER_LOCAL_EXECUTION } })

end Flytekit

namespace Flytekit

/-- Task function of the spec scenario: double(x: int) -> int. -/
def double : List (String × PyObj) → PyObj := fun kwargs =>
  match kwargs.lookup "x" with
  | some (.vint n) => .vint (2 * n)
  | _ => .vnone

theorem dictInsert_of_not_mem {Lit : Type} (m : List (String × Lit))
    (k : String) (v : Lit) (h : k ∉ m.map Prod.fst) :
    dictInsert m k v = m ++ [(k, v)] := by
  unfold dictInsert
  rw [if_neg]
  intro hany
  rcases List.any_eq_true.mp hany with ⟨p, hp, hpk⟩
  exact h (List.mem_map.mpr ⟨p, hp, (of_decide_eq_true hpk).symm ▸ rfl⟩)

theorem foldl_dictInsert_of_nodup {Lit : Type} :
    ∀ (l acc : List (String × Lit)),
      ((acc ++ l).map Prod.fst).Nodup →
      l.foldl (fun m p => dictInsert m p.1 p.2) acc = acc ++ l := by
  intro l
  induction l with
  | nil => intro acc _; simp
  | cons p rest ih =>
    intro acc h
    have hk : p.1 ∉ acc.map Prod.fst := by
      rw [List.map_append, List.nodup_append] at h
      intro hmem
      exact h.2.2 hmem (by simp)
    rw [List.foldl_cons, dictInsert_of_not_mem acc p.1 p.2 hk]
    have h2 : (((acc ++ [p]) ++ rest).map Prod.fst).Nodup := by
      rw [List.append_assoc]
      simpa using h
    rw [ih (acc ++ [p]) h2, List.append_assoc]
    rfl

theorem dictOfList_of_nodup {Lit : Type} (l : List (String × Lit))
    (h : (l.map Prod.fst).Nodup) : dictOfList l = l := by
  have := foldl_dictInsert_of_nodup l [] (by simpa using h)
  simpa [dictOfList] using this

/-- C1: for every Task Entity with tag DEFAULT and every keyword-argument
map, execute(kwargs) returns exactly the result of calling the wrapped
task function with the same kwargs, regardless of the execution state in
context; in particular the entity wrapping double returns 6 on x = 3. -/
theorem default_tag_execute_is_direct_call :
    (∀ (Node Lit Tmpl SubWf : Type)
       (fn : List (String × PyObj) → PyObj)
       (es : Option ExecState) (name : String) (cnt : Nat)
       (names : List String) (otn : Option String)
       (tr : List (String × PyObj) → List (String × PyObj))
       (wfres : PyObj) (spec : WorkflowSpec Node Lit SubWf)
       (me : List (EntityKind × SerializedModel Tmpl))
       (kwargs : List (String × PyObj)),
       @PythonFunctionTask.execute Node Lit Tmpl SubWf .DEFAULT fn es name
         cnt names otn tr wfres spec me kwargs = .ok (.native (fn kwargs)))
    ∧ @PythonFunctionTask.execute Unit Unit Unit Unit .DEFAULT double none
        "double" 1 ["o0"] none id PyObj.vnone ⟨⟨[], []⟩, []⟩ []
        [("x", PyObj.vint 3)] = .ok (.native (PyObj.vint 6)) := by
  constructor
  · intro Node Lit Tmpl SubWf fn es name cnt names otn tr wfres spec me kwargs
    rfl
  · rfl

/-- C2: for a DYNAMIC entity dispatched under a local execution state, a
workflow-body result that is None or a VoidPromise makes the dispatcher
return the void-result marker carrying the entity name, and never a
literal map. -/
theorem dynamic_local_void_result_returns_void_promise
    {Node Lit Tmpl SubWf : Type} (es : ExecState)
    (hlocal : es.isLocalFlag = true) (name : String) (cnt : Nat)
    (names : List String) (otn : Option String)
    (tr : List (String × PyObj) → List (String × PyObj))
    (res : PyObj) (hres : res = .vnone ∨ ∃ s, res = .voidP s)
    (spec : WorkflowSpec Node Lit SubWf)
    (me : List (EntityKind × SerializedModel Tmpl)) (raw : PyObj) :
    dynamic_execute (some es) name cnt names otn tr res spec me raw
        = .ok (.localResult (.voidPromise name))
    ∧ ∀ m, dynamic_execute (some es) name cnt names otn tr res spec me raw
        ≠ .ok (.localResult (.literalMap m)) := by
  have hmain : dynamic_execute (some es) name cnt names otn tr res spec me raw
      = .ok (.localResult (.voidPromise name)) := by
    rcases hres with h | ⟨s, h⟩ <;>
      simp [dynamic_execute, dynamic_execute_local, hlocal, h, Except.map]
  refine ⟨hmain, fun m hm => ?_⟩
  rw [hmain] at hm
  injection hm with h1
  injection h1 with h2
  injection h2

/-- Closed instance of C2: a DYNAMIC entity named t, one declared output,
local execution state, workflow body returning None. -/
theorem dynamic_local_void_result_returns_void_promise_witness :
    dynamic_execute (some ⟨.LOCAL_WORKFLOW_EXECUTION, true⟩) "t" 1 ["o"]
        none id PyObj.vnone
        (⟨⟨[], []⟩, []⟩ : WorkflowSpec Nat Nat Nat)
        ([] : List (EntityKind × SerializedModel Nat)) PyObj.vnone
      = .ok (.localResult (.voidPromise "t")) :=
  (dynamic_local_void_result_returns_void_promise
    ⟨.LOCAL_WORKFLOW_EXECUTION, true⟩ rfl "t" 1 ["o"] none id PyObj.vnone
    (Or.inl rfl) ⟨⟨[], []⟩, []⟩ [] PyObj.vnone).1

/-- C5: materializing the dynamic workflow is idempotent: the first call
fills the cache and every later call leaves the cached field equal to the
value the first call stored. -/
theorem dynamic_workflow_materialization_idempotent {F : Type}
    (mi : Option Bool) (fn : F) (wf : Option (PythonFunctionWorkflow F)) :
    create_and_cache_dynamic_workflow mi fn
        (create_and_cache_dynamic_workflow mi fn wf)
      = create_and_cache_dynamic_workflow mi fn wf
    ∧ (create_and_cache_dynamic_workflow mi fn wf).isSome = true := by
  cases wf <;> simp [create_and_cache_dynamic_workflow]

end Flytekit

namespace Flytekit

/-- C3: a dynamic compile whose produced node list is empty short-circuits
to a plain literal map whose entries are exactly the bound output variable
names of the workflow spec paired with their bound literals, assuming the
bound output names are distinct (their keys come from the declared output
names of an interface). -/
theorem zero_node_compile_returns_output_literal_map
    {Node Lit Tmpl SubWf : Type} (spec : WorkflowSpec Node Lit SubWf)
    (me : List (EntityKind × SerializedModel Tmpl))
    (hnodes : spec.template.nodes = [])
    (hvars : (spec.template.outputs.map Binding.var).Nodup) :
    compile_into_workflow spec me
        = .ok (.literalMap (spec.template.outputs.map (fun b => (b.var, b.lit))))
    ∧ (spec.template.outputs.map (fun b => (b.var, b.lit))).map Prod.fst
        = spec.template.outputs.map Binding.var := by
  have hkeys : (spec.template.outputs.map (fun b => (b.var, b.lit))).map Prod.fst
      = spec.template.outputs.map Binding.var := by
    rw [List.map_map]
    rfl
  refine ⟨?_, hkeys⟩
  unfold compile_into_workflow
  rw [if_pos (by rw [hnodes]; rfl)]
  rw [dictOfList_of_nodup _ (by rw [hkeys]; exact hvars)]

/-- Closed instance of C3: a spec with zero nodes and two bound outputs
a = 1 and b = 2 compiles to the literal map [(a, 1), (b, 2)]. -/
theorem zero_node_compile_returns_output_literal_map_witness :
    compile_into_workflow
        (⟨⟨([] : List Nat), [⟨"a", 1⟩, ⟨"b", 2⟩]⟩, ([] : List Nat)⟩ :
          WorkflowSpec Nat Nat Nat)
        ([(EntityKind.plainTask, SerializedModel.taskSpec 0)] :
          List (EntityKind × SerializedModel Nat))
      = .ok (.literalMap [("a", 1), ("b", 2)]) :=
  (zero_node_compile_returns_output_literal_map
    ⟨⟨[], [⟨"a", 1⟩, ⟨"b", 2⟩]⟩, []⟩
    [(EntityKind.plainTask, SerializedModel.taskSpec 0)] rfl (by decide)).1

/-- C4: a dynamic compile that produces a nonempty node list and whose
template gathering succeeds emits a DynamicJobSpec whose min_successes is
the number of produced nodes and which carries exactly the gathered
templates, the produced nodes, the declared outputs and the sub-workflow
specs of the workflow spec. -/
theorem nonempty_compile_emits_dynamic_job_spec
    {Node Lit Tmpl SubWf : Type} (spec : WorkflowSpec Node Lit SubWf)
    (me : List (EntityKind × SerializedModel Tmpl)) (tts : List Tmpl)
    (hnodes : spec.template.nodes ≠ [])
    (hgather : gatherTaskTemplates me = .ok tts) :
    compile_into_workflow spec me
      = .ok (.dynamicJobSpec
          { min_successes := spec.template.nodes.length
            tasks := tts
            nodes := spec.template.nodes
            outputs := spec.template.outputs
            subworkflows := spec.sub_workflows }) := by
  unfold compile_into_workflow
  rw [if_neg (by simpa using hnodes), hgather]
  rfl

/-- Closed instance of C4: two nodes and a registry with one plain task
serialized to template 9 yield a job spec with min_successes 2. -/
theorem nonempty_compile_emits_dynamic_job_spec_witness :
    compile_into_workflow
        (⟨⟨[10, 11], [⟨"a", 1⟩]⟩, [5]⟩ : WorkflowSpec Nat Nat Nat)
        ([(EntityKind.plainTask, SerializedModel.taskSpec 9),
          (EntityKind.launchPlan, SerializedModel.otherModel)] :
          List (EntityKind × SerializedModel Nat))
      = .ok (.dynamicJobSpec
          { min_successes := 2, tasks := [9], nodes := [10, 11],
            outputs := [⟨"a", 1⟩], subworkflows := [5] }) :=
  nonempty_compile_emits_dynamic_job_spec
    ⟨⟨[10, 11], [⟨"a", 1⟩]⟩, [5]⟩
    [(EntityKind.plainTask, SerializedModel.taskSpec 9),
     (EntityKind.launchPlan, SerializedModel.otherModel)]
    [9] (by decide) rfl

theorem gatherTaskTemplates_error_of_referenceTask {Tmpl : Type} :
    ∀ me : List (EntityKind × SerializedModel Tmpl),
      EntityKind.referenceTask ∈ me.map Prod.fst →
      ∃ e, gatherTaskTemplates me = .error e := by
  intro me
  induction me with
  | nil => intro h; cases h
  | cons p rest ih =>
    intro h
    obtain ⟨entity, model⟩ := p
    by_cases he : entity = .referenceTask
    · subst he
      exact ⟨.valueError
        "Reference tasks are currently unsupported within dynamic tasks", rfl⟩
    · have hrest : EntityKind.referenceTask ∈ rest.map Prod.fst := by
        rcases List.mem_cons.mp h with h1 | h1
        · exact absurd h1.symm he
        · exact h1
      obtain ⟨e, herr⟩ := ih hrest
      unfold gatherTaskTemplates
      by_cases ht : entity.isTaskLike
      · rw [if_neg (by simpa using ht), if_neg he]
        cases model with
        | otherModel => exact ⟨_, rfl⟩
        | taskSpec t => exact ⟨e, by rw [herr]; rfl⟩
      · rw [if_pos (by simpa using ht)]
        exact ⟨e, herr⟩

/-- C8: during a dynamic compile that reaches template gathering (a
nonempty node list), a registry entry whose entity is a ReferenceTask
forces the compile to raise instead of producing a DynamicJobSpec, while a
launch-plan entry is skipped by the gathering loop rather than
rejected. -/
theorem reference_task_rejected_launch_plan_skipped
    {Node Lit Tmpl SubWf : Type} (spec : WorkflowSpec Node Lit SubWf)
    (me : List (EntityKind × SerializedModel Tmpl))
    (hnodes : spec.template.nodes ≠ []) :
    (EntityKind.referenceTask ∈ me.map Prod.fst →
      ∃ e, compile_into_workflow spec me = .error e)
    ∧ ∀ (m : SerializedModel Tmpl)
        (rest : List (EntityKind × SerializedModel Tmpl)),
        gatherTaskTemplates ((EntityKind.launchPlan, m) :: rest)
          = gatherTaskTemplates rest := by
  constructor
  · intro href
    obtain ⟨e, herr⟩ := gatherTaskTemplates_error_of_referenceTask me href
    refine ⟨e, ?_⟩
    unfold compile_into_workflow
    rw [if_neg (by simpa using hnodes), herr]
    rfl
  · intro m rest
    simp [gatherTaskTemplates, EntityKind.isTaskLike]

/-- Closed instance of C8: one node, registry holding only a
ReferenceTask entry; the compile errors, and a launch-plan entry ahead of
an empty registry gathers to the empty template list. -/
theorem reference_task_rejected_launch_plan_skipped_witness :
    (∃ e, compile_into_workflow
        (⟨⟨[10], []⟩, []⟩ : WorkflowSpec Nat Nat Nat)
        ([(EntityKind.referenceTask, SerializedModel.taskSpec 3)] :
          List (EntityKind × SerializedModel Nat)) = .error e)
    ∧ gatherTaskTemplates
        ([(EntityKind.launchPlan, SerializedModel.otherModel)] :
          List (EntityKind × SerializedModel Nat))
        = gatherTaskTemplates ([] : List (EntityKind × SerializedModel Nat)) := by
  have h := reference_task_rejected_launch_plan_skipped
    (⟨⟨[10], []⟩, []⟩ : WorkflowSpec Nat Nat Nat)
    ([(EntityKind.referenceTask, SerializedModel.taskSpec 3)] :
      List (EntityKind × SerializedModel Nat)) (by decide)
  exact ⟨h.1 (by decide), h.2 SerializedModel.otherModel []⟩

end Flytekit

namespace Flytekit

/-- Refutation of C6 at a concrete input: in the local-execution branch of
a DYNAMIC dispatch with two declared outputs, a None result of the
workflow body does not raise; it returns the void-result marker.  The
raise site of the branch fires in the opposite situation (declared output
count zero, result non-void). -/
theorem void_result_with_declared_outputs_not_error :
    dynamic_execute (some ⟨.LOCAL_TASK_EXECUTION, true⟩) "gen" 2 ["a", "b"]
        none id PyObj.vnone
        (⟨⟨[], []⟩, []⟩ : WorkflowSpec Nat Nat Nat)
        ([] : List (EntityKind × SerializedModel Nat)) PyObj.vnone
      = .ok (.localResult (.voidPromise "gen")) := rfl

theorem bind_pure_eq_error {α β : Type} (a : Except FlyteError α)
    (g : α → β) (e : FlyteError)
    (h : (do let x ← a; pure (g x) : Except FlyteError β) = .error e) :
    a = .error e := by
  cases a with
  | ok v => exact Except.noConfusion h
  | error e1 =>
    have h2 : (Except.error e1 : Except FlyteError β) = .error e := h
    injection h2 with h3
    rw [h3]

theorem listGet_error_eq {α : Type} :
    ∀ (l : List α) (n : Nat) (e : FlyteError),
      listGet l n = .error e → e = .indexError := by
  intro l
  induction l with
  | nil =>
    intro n e h
    injection h with h1
    exact h1.symm
  | cons x xs ih =>
    intro n e h
    cases n with
    | zero => exact Except.noConfusion h
    | succ m => exact ih m e h

theorem zipOutputsWithNames_error_eq (names : List String) :
    ∀ (xs : List PyObj) (i : Nat) (e : FlyteError),
      zipOutputsWithNames names xs i = .error e → e = .indexError := by
  intro xs
  induction xs with
  | nil => intro i e h; exact Except.noConfusion h
  | cons x rest ih =>
    intro i e h
    have h1 : (do
        let n ← listGet names i
        let r ← zipOutputsWithNames names rest (i + 1)
        pure ((n, x) :: r) : Except FlyteError (List (String × PyObj)))
        = .error e := h
    cases hg : listGet names i with
    | error e1 =>
      rw [hg] at h1
      have h2 : (Except.error e1 :
          Except FlyteError (List (String × PyObj))) = .error e := h1
      injection h2 with h3
      exact h3 ▸ listGet_error_eq names i e1 hg
    | ok n =>
      rw [hg] at h1
      have h3 : (do
          let r ← zipOutputsWithNames names rest (i + 1)
          pure ((n, x) :: r) : Except FlyteError (List (String × PyObj)))
          = .error e := h1
      cases hz : zipOutputsWithNames names rest (i + 1) with
      | error e2 =>
        rw [hz] at h3
        have h4 : (Except.error e2 :
            Except FlyteError (List (String × PyObj))) = .error e := h3
        injection h4 with h5
        exact h5 ▸ ih (i + 1) e2 hz
      | ok r =>
        rw [hz] at h3
        exact Except.noConfusion h3

/-- In the local-execution normalization path, a nonzero declared workflow
output count rules out the FlyteValueException: every other failure of the
path is an IndexError (subscripting the first tuple element or the name
list) or a TypeError (iterating a non-iterable), and the void/None cases
return the void marker. -/
theorem dynamic_execute_local_no_value_exception (name : String) (cnt : Nat)
    (names : List String) (otn : Option String)
    (tr : List (String × PyObj) → List (String × PyObj)) (res : PyObj)
    (hcnt : cnt ≠ 0) (msg : String) :
    dynamic_execute_local name cnt names otn tr res
      ≠ .error (.flyteValueException msg) := by
  intro h
  cases res with
  | vnone => exact Except.noConfusion h
  | voidP s => exact Except.noConfusion h
  | vtuple xs =>
    simp only [dynamic_execute_local] at h
    rw [if_neg hcnt] at h
    by_cases hlen : names.length = 1
    · rw [if_pos hlen] at h
      cases otn with
      | none => exact Except.noConfusion h
      | some s =>
        have h1 : (do
            let v ← listGet xs 0
            pure (LocalDynResult.literalMap
              (tr (dictOfList [(names.headD "", v)]))) :
              Except FlyteError LocalDynResult)
            = .error (.flyteValueException msg) := h
        have hg := bind_pure_eq_error _ _ _ h1
        have h5 := listGet_error_eq xs 0 _ hg
        exact FlyteError.noConfusion h5
    · rw [if_neg hlen] at h
      have h1 : (do
          let pairs ← zipOutputsWithNames names xs 0
          pure (LocalDynResult.literalMap (tr (dictOfList pairs))) :
            Except FlyteError LocalDynResult)
          = .error (.flyteValueException msg) := h
      have hz := bind_pure_eq_error _ _ _ h1
      have h5 := zipOutputsWithNames_error_eq names xs 0 _ hz
      exact FlyteError.noConfusion h5
  | vint n =>
    simp only [dynamic_execute_local] at h
    rw [if_neg hcnt] at h
    by_cases hlen : names.length = 1
    · rw [if_pos hlen] at h
      exact Except.noConfusion h
    · rw [if_neg hlen] at h
      have h1 : (Except.error (FlyteError.typeError "object is not iterable") :
          Except FlyteError LocalDynResult)
          = .error (.flyteValueException msg) := h
      injection h1 with h5
      exact FlyteError.noConfusion h5

/-- C6 amended: in the local-execution normalization path a void or None
native result always yields the void-result marker, whatever the declared
output count; the FlyteValueException is raised exactly in the converse
situation, when the result is neither a VoidPromise nor None but the
workflow interface declares zero outputs. -/
theorem dynamic_local_error_iff_zero_outputs_nonvoid (name : String)
    (cnt : Nat) (names : List String) (otn : Option String)
    (tr : List (String × PyObj) → List (String × PyObj)) (res : PyObj) :
    ((res = .vnone ∨ ∃ s, res = .voidP s) →
      dynamic_execute_local name cnt names otn tr res
        = .ok (.voidPromise name))
    ∧ (∀ msg : String,
      dynamic_execute_local name cnt names otn tr res
          = .error (.flyteValueException msg)
        ↔ ((∀ s, res ≠ .voidP s) ∧ res ≠ .vnone ∧ cnt = 0
            ∧ msg = "Interface output should have been VoidPromise or None.")) := by
  constructor
  · rintro (h | ⟨s, h⟩) <;> subst h <;> rfl
  · intro msg
    constructor
    · intro h
      have hcnt : cnt = 0 := by
        by_contra hc
        exact dynamic_execute_local_no_value_exception name cnt names otn tr
          res hc msg h
      subst hcnt
      cases res with
      | vnone => exact Except.noConfusion h
      | voidP s => exact Except.noConfusion h
      | vtuple xs =>
        refine ⟨fun s hs => PyObj.noConfusion hs,
          fun hs => PyObj.noConfusion hs, rfl, ?_⟩
        have h2 : (Except.error (FlyteError.flyteValueException
            "Interface output should have been VoidPromise or None.") :
            Except FlyteError LocalDynResult)
            = .error (.flyteValueException msg) := h
        injection h2 with h3
        injection h3 with h4
        exact h4.symm
      | vint n =>
        refine ⟨fun s hs => PyObj.noConfusion hs,
          fun hs => PyObj.noConfusion hs, rfl, ?_⟩
        have h2 : (Except.error (FlyteError.flyteValueException
            "Interface output should have been VoidPromise or None.") :
            Except FlyteError LocalDynResult)
            = .error (.flyteValueException msg) := h
        injection h2 with h3
        injection h3 with h4
        exact h4.symm
    · rintro ⟨hvoid, hnone, hcnt, hmsg⟩
      subst hcnt
      subst hmsg
      cases res with
      | vnone => exact absurd rfl hnone
      | voidP s => exact absurd rfl (hvoid s)
      | vtuple xs => rfl
      | vint n => rfl

/-- Closed instance of the amended C6: zero declared workflow outputs and
a non-void native result raise the FlyteValueException. -/
theorem dynamic_local_error_iff_zero_outputs_nonvoid_witness :
    dynamic_execute_local "t" 0 [] none id (PyObj.vint 5)
      = .error (.flyteValueException
          "Interface output should have been VoidPromise or None.") :=
  ((dynamic_local_error_iff_zero_outputs_nonvoid "t" 0 [] none id
      (PyObj.vint 5)).2
    "Interface output should have been VoidPromise or None.").mpr
    ⟨fun _ h => PyObj.noConfusion h, fun h => PyObj.noConfusion h, rfl, rfl⟩

/-- C7: provided construction gets past the task-function and
nested-function checks, supplying dependency hints with a tag other than
DYNAMIC raises the construction ValueError, while a DYNAMIC entity
constructs successfully with or without hints. -/
theorem dependency_hints_require_dynamic_mode {F Hint : Type} (f : F)
    (udr istest nestedFn wrapped : Bool)
    (hnested : (udr && !istest && nestedFn && !wrapped) = false)
    (mode : ExecutionBehavior) (hints : List Hint)
    (anyHints : Option (List Hint)) :
    (mode ≠ .DYNAMIC →
      PythonFunctionTask.init (some f) udr istest nestedFn wrapped mode
          (some hints)
        = .error (.valueError
            "node_dependency_hints should only be used on dynamic tasks"))
    ∧ (PythonFunctionTask.init (some f) udr istest nestedFn wrapped .DYNAMIC
        anyHints).isOk = true := by
  constructor
  · intro hmode
    simp [PythonFunctionTask.init, hnested, hmode]
  · simp [PythonFunctionTask.init, hnested, Except.isOk, Except.toBool]

/-- Closed instance of C7: hints with tag DEFAULT raise; the same hints
with tag DYNAMIC construct. -/
theorem dependency_hints_require_dynamic_mode_witness :
    (PythonFunctionTask.init (some (fun x : Nat => x)) true true false false
        ExecutionBehavior.DEFAULT (some [(0 : Nat)])
      = .error (.valueError
          "node_dependency_hints should only be used on dynamic tasks"))
    ∧ (PythonFunctionTask.init (some (fun x : Nat => x)) true true false false
        ExecutionBehavior.DYNAMIC (some [(0 : Nat)])).isOk = true := by
  have h := dependency_hints_require_dynamic_mode (fun x : Nat => x)
    true true false false rfl ExecutionBehavior.DEFAULT [(0 : Nat)]
    (some [(0 : Nat)])
  exact ⟨h.1 (fun hc => ExecutionBehavior.noConfusion hc), h.2⟩

/-- C9: cluster-backed eager dispatch with no remote client in context
raises the AssertionError without invoking the task body; with a client
present and no worker queue in context, the body runs under a context
whose worker queue was built from that client (and whose mode is
EAGER_EXECUTION). -/
theorem eager_backend_requires_client_and_creates_queue {Q R V : Type}
    (ctx : FlyteContext Q R) (mk : R → Q) (body : FlyteContext Q R → V) :
    (ctx.flyte_client = none →
      run_with_backend ctx mk body
        = .error (.assertionError
            "Remote client needs to be present in the context for cluster-based execution of an eager task."))
    ∧ (∀ (r : R) (es : ExecState),
        ctx.flyte_client = some r → ctx.execution_state = some es →
        ctx.worker_queue = none →
        run_with_backend ctx mk body
          = .ok (body
              { ctx with
                execution_state := some { es with mode := .EAGER_EXECUTION }
                worker_queue := some (mk r) })) := by
  constructor
  · intro h
    simp [run_with_backend, h]
  · intro r es hr hes hq
    simp [run_with_backend, hr, hes, hq]

/-- Closed instance of C9: a client-less context errors; a context with
client 7, no queue and a queue constructor adding one runs the body with
queue 8 in scope. -/
theorem eager_backend_requires_client_and_creates_queue_witness :
    (run_with_backend
        (⟨some ⟨.TASK_EXECUTION, false⟩, none, none⟩ : FlyteContext Nat Nat)
        (fun r => r + 1) (fun c => c.worker_queue.getD 0)
      = .error (.assertionError
          "Remote client needs to be present in the context for cluster-based execution of an eager task."))
    ∧ run_with_backend
        (⟨some ⟨.TASK_EXECUTION, false⟩, some 7, none⟩ : FlyteContext Nat Nat)
        (fun r => r + 1) (fun c => c.worker_queue.getD 0) = .ok 8 := by
  constructor
  · exact (eager_backend_requires_client_and_creates_queue
      (⟨some ⟨.TASK_EXECUTION, false⟩, none, none⟩ : FlyteContext Nat Nat)
      (fun r => r + 1) (fun c => c.worker_queue.getD 0)).1 rfl
  · exact (eager_backend_requires_client_and_creates_queue
      (⟨some ⟨.TASK_EXECUTION, false⟩, some 7, none⟩ : FlyteContext Nat Nat)
      (fun r => r + 1) (fun c => c.worker_queue.getD 0)).2 7
      ⟨.TASK_EXECUTION, false⟩ rfl rfl rfl

/-- C10: under a non-local execution state the eager async_execute awaits
run_with_backend but returns None, discarding the value the backend run
produced; under a local state it returns the task-function result run
under EAGER_LOCAL_EXECUTION mode. -/
theorem eager_async_execute_discards_backend_result {Q R : Type}
    (ctx : FlyteContext Q R) (mk : R → Q)
    (body : FlyteContext Q R → PyObj) (es : ExecState)
    (hes : ctx.execution_state = some es) :
    (es.isLocalFlag = false → ∀ v : PyObj,
      run_with_backend ctx mk body = .ok v →
      EagerAsyncPythonFunctionTask.async_execute ctx mk body = .ok .vnone)
    ∧ (es.isLocalFlag = true →
      EagerAsyncPythonFunctionTask.async_execute ctx mk body
        = .ok (body
            { ctx with
              execution_state :=
                some { es with mode := .EAGER_LOCAL_EXECUTION } })) := by
  constructor
  · intro hflag v hrun
    simp [EagerAsyncPythonFunctionTask.async_execute, hes, hflag, hrun,
      Except.map]
  · intro hflag
    simp [EagerAsyncPythonFunctionTask.async_execute, hes, hflag]

/-- Closed instance of C10: a backend run whose body produces 5 still
makes async_execute return None, while the same body under a local state
returns 5. -/
theorem eager_async_execute_discards_backend_result_witness :
    (EagerAsyncPythonFunctionTask.async_execute
        (⟨some ⟨.TASK_EXECUTION, false⟩, some 7, some 3⟩ : FlyteContext Nat Nat)
        (fun r => r + 1) (fun _ => PyObj.vint 5) = .ok .vnone)
    ∧ EagerAsyncPythonFunctionTask.async_execute
        (⟨some ⟨.LOCAL_WORKFLOW_EXECUTION, true⟩, none, none⟩ :
          FlyteContext Nat Nat)
        (fun r => r + 1) (fun _ => PyObj.vint 5) = .ok (PyObj.vint 5) := by
  constructor
  · exact (eager_async_execute_discards_backend_result
      (⟨some ⟨.TASK_EXECUTION, false⟩, some 7, some 3⟩ : FlyteContext Nat Nat)
      (fun r => r + 1) (fun _ => PyObj.vint 5)
      ⟨.TASK_EXECUTION, false⟩ rfl).1 rfl (PyObj.vint 5) rfl
  · exact (eager_async_execute_discards_backend_result
      (⟨some ⟨.LOCAL_WORKFLOW_EXECUTION, true⟩, none, none⟩ :
        FlyteContext Nat Nat)
      (fun r => r + 1) (fun _ => PyObj.vint 5)
      ⟨.LOCAL_WORKFLOW_EXECUTION, true⟩ rfl).2 rfl

end Flytekit
